import Mathlib

set_option maxHeartbeats 1000000

/-!
Verification of the payment-gated MCP tool server
(src/example_mcp_server/main.py).

The file embeds, shallowly:
  - the Tool Executor (the wrapped `call_tool` body in main.py),
  - the concrete price policy dictionary passed to the payment gate,
  - the Request Adapter `handle_streamable_http` in main.py,
  - the Wallet Context Store and the Payment Gate.  These two live in the
    external `paylink` package and are not in src/, so they are modelled
    from the specification (sections 4.1 and 4.2), faithful to its words;
    each such definition is marked `Modelled from the spec:`.
-/

/-- A text content item as returned to the caller, field for field the
TextContent of the transport layer: a type tag (always "text" here) and the
text itself. -/
structure TextContent where
  type : String
  text : String
  deriving DecidableEq, Repr

/-- The argument mapping for the arithmetic tools.  The input schema
requires the two numbers `a` and `b`; the transport layer validates the
mapping against the schema before dispatch (spec section 4.2), so the
executor only ever sees both present. -/
structure Args where
  a : Int
  b : Int
  deriving DecidableEq, Repr

/-- The ASCII apostrophe character, code 39, used in the unknown-tool
message of the executor. -/
def squote : String := String.singleton (Char.ofNat 39)

/-- The text of the executor fallback branch in main.py:
`Error: Unknown tool <name>` with the name in apostrophes. -/
def unknownToolText (tool_name : String) : String :=
  "Error: Unknown tool " ++ squote ++ tool_name ++ squote

/-- The wrapped Tool Executor `call_tool` from main.py: "add" returns a
single text item holding `str(a + b)`, "subtract" returns `str(a - b)`,
and any other name falls through to a single unknown-tool text item
(the executor never raises on an unknown name). -/
def call_tool (tool_name : String) (arguments : Args) : List TextContent :=
  if tool_name = "add" then
    [⟨"text", toString (arguments.a + arguments.b)⟩]
  else if tool_name = "subtract" then
    [⟨"text", toString (arguments.a - arguments.b)⟩]
  else
    [⟨"text", unknownToolText tool_name⟩]

/-- A tool price policy entry: base cost and the two-phase settlement flag
(spec section 3, and the dictionary literal in main.py). -/
structure ToolPricePolicy where
  base_cost : ℚ
  require_evaluation : Bool
  deriving DecidableEq, Repr

/-- The concrete price policy dictionary passed to the payment gate in
main.py: "add" and "subtract" both cost 0.10 with `require_evaluation`
true; no other tool is priced. -/
def price_policy : String → Option ToolPricePolicy := fun name =>
  if name = "add" then some ⟨1 / 10, true⟩
  else if name = "subtract" then some ⟨1 / 10, true⟩
  else none

/-! ## Wallet Context Store (spec section 4.1)

Modelled from the spec: the `paylink.mcp.wallet_context` module
(`set_agent_wallet_from_scope`, `reset_agent_wallet` and the resolver used
by the gate) is not in src/.  The spec describes request-scoped storage:
`install` on one logical request is never observable by `resolve` calls of
a different concurrently-running request, so the store is a map from
request identifier to the optionally-installed wallet identity. -/

/-- A request identifier: one logical task per inbound tool call. -/
abbrev ReqId := Nat

/-- The wallet context store: what each in-flight request would resolve.
Modelled from the spec: request-scoped storage, absent by default. -/
abbrev Store := ReqId → Option String

/-- Modelled from the spec: `resolve() -> identity | absent`, read within
the given request. -/
def resolveWallet (st : Store) (r : ReqId) : Option String := st r

/-- The token returned by `install`, carrying what must be restored on
`remove`: the request it belongs to and the value the context variable
held before the install. -/
structure WalletToken where
  req : ReqId
  old : Option String
  deriving DecidableEq, Repr

/-- Modelled from the spec: `install(identity) -> token` as performed by
`set_agent_wallet_from_scope(scope)` in main.py.  Extraction of the wallet
from the transport scope may fail, which simply installs "absent" (spec
section 4.3); the returned token remembers the previous value. -/
def set_agent_wallet_from_scope (st : Store) (r : ReqId)
    (scopeWallet : Option String) : WalletToken × Store :=
  (⟨r, st r⟩, fun x => if x = r then scopeWallet else st x)

/-- Modelled from the spec: `remove(token)` as performed by
`reset_agent_wallet(token)`: restore the value the token recorded for its
request. -/
def reset_agent_wallet (st : Store) (tok : WalletToken) : Store :=
  fun x => if x = tok.req then tok.old else st x

/-- Whether `session_manager.handle_request` returned normally or raised a
transport-level error inside the `try` of `handle_streamable_http`. -/
inductive TransportOutcome
  | normal
  | raised
  deriving DecidableEq, Repr

/-- The Request Adapter `handle_streamable_http` from main.py, as it acts
on the wallet context store: install the wallet extracted from the scope,
run the session manager (which may raise; the `except` clause only logs),
and reset the context in the `finally` clause — so the reset runs on both
exit paths. -/
def handle_streamable_http (st : Store) (r : ReqId)
    (scopeWallet : Option String) (outcome : TransportOutcome) : Store :=
  let p := set_agent_wallet_from_scope st r scopeWallet
  match outcome with
  | .normal => reset_agent_wallet p.2 p.1
  | .raised => reset_agent_wallet p.2 p.1

/-! ## Interleaved traces of context operations

For the isolation property the store is driven by an arbitrary interleaved
trace of install/reset steps issued by concurrently-executing requests. -/

/-- One step of some request against the wallet context store. -/
inductive CtxOp
  | installOp (r : ReqId) (w : Option String)
  | resetOp (r : ReqId) (old : Option String)
  deriving DecidableEq, Repr

/-- The request a context step belongs to. -/
def CtxOp.target : CtxOp → ReqId
  | .installOp r _ => r
  | .resetOp r _ => r

/-- Apply one context step to the store. -/
def applyCtxOp (st : Store) : CtxOp → Store
  | .installOp r w => (set_agent_wallet_from_scope st r w).2
  | .resetOp r old => reset_agent_wallet st ⟨r, old⟩

/-- Run an interleaved trace of context steps, left to right. -/
def runOps (st : Store) : List CtxOp → Store
  | [] => st
  | op :: rest => runOps (applyCtxOp st op) rest

/-! ## Payment Gate (spec section 4.2)

Modelled from the spec: `require_payment` from `paylink.mcp.monetize_mcp`
is not in src/; only its call site (the decorator on `call_tool` in
main.py, with the concrete `price_policy` above) is.  The gate follows the
six-step algorithm of spec section 4.2 and the error taxonomy of section
7; ledger calls are recorded as events so that their number and order are
part of the result. -/

/-- The five gate errors of the spec error taxonomy (section 7). -/
inductive GateError
  | UnknownToolError
  | UnauthenticatedError
  | PaymentRequiredError
  | PaymentGateUnavailableError
  | ToolExecutionError
  deriving DecidableEq, Repr

/-- The stage tag of a gate error, used in the user-visible error text. -/
def GateError.stage : GateError → String
  | .UnknownToolError => "UnknownToolError"
  | .UnauthenticatedError => "UnauthenticatedError"
  | .PaymentRequiredError => "PaymentRequiredError"
  | .PaymentGateUnavailableError => "PaymentGateUnavailableError"
  | .ToolExecutionError => "ToolExecutionError"

/-- Modelled from the spec: every failure is converted at the gate
boundary into a well-formed textual content item tagged with the stage
that failed (spec section 7). -/
def errorContent (e : GateError) : TextContent :=
  ⟨"text", "Payment gate error [" ++ e.stage ++ "]"⟩

/-- Result of the synchronous `authorize` call on the external ledger
collaborator (spec section 4.2 step 4). -/
inductive AuthResult
  | ok
  | insufficient_funds
  | ledger_unavailable
  deriving DecidableEq, Repr

/-- The ledger collaborator at its interface boundary: availability flag
and a balance per wallet identity. -/
structure Ledger where
  available : Bool
  balance : String → ℚ

/-- Modelled from the spec: `authorize(identity, amount)` checks that the
wallet can cover the amount and, when it can, reserves/charges it; on
`insufficient_funds` or `ledger_unavailable` the ledger is left
unchanged. -/
def Ledger.authorize (L : Ledger) (ident : String) (amount : ℚ) :
    AuthResult × Ledger :=
  if L.available = false then (.ledger_unavailable, L)
  else if L.balance ident < amount then (.insufficient_funds, L)
  else (.ok,
    { L with balance := fun i => if i = ident then L.balance i - amount
                                 else L.balance i })

/-- A call issued by the gate to the ledger collaborator. -/
inductive LedgerEvent
  | authorizeCall (ident : String) (amount : ℚ)
  | settleCall (ident : String) (amount : ℚ)
  deriving DecidableEq

/-- Whether an event is an authorization call. -/
def LedgerEvent.isAuthorize : LedgerEvent → Bool
  | .authorizeCall _ _ => true
  | _ => false

/-- Whether an event is a settlement call. -/
def LedgerEvent.isSettle : LedgerEvent → Bool
  | .settleCall _ _ => true
  | _ => false

/-- Number of authorization calls in an event list. -/
def countAuth (evs : List LedgerEvent) : Nat :=
  (evs.filter LedgerEvent.isAuthorize).length

/-- Number of settlement calls in an event list. -/
def countSettle (evs : List LedgerEvent) : Nat :=
  (evs.filter LedgerEvent.isSettle).length

/-- Outcome of running the Tool Executor: its content list, or a raised
error inside the tool body. -/
inductive ExecOutcome
  | success (content : List TextContent)
  | failure
  deriving DecidableEq

/-- Modelled from the spec: the core of the gate algorithm (spec section
4.2 steps 1-5), before the boundary that converts errors to content.
Returns the outcome, the ledger after the call, the ledger calls issued,
and how many times the Tool Executor ran.  On executor failure of a
`require_evaluation` tool the pre-authorization is rolled back with no
settlement call (the reconciliation rule is an open policy point, spec
section 9; no choice of it issues a second authorization or more than one
settlement). -/
def gateCore (pol : String → Option ToolPricePolicy)
    (wallet : Option String) (L : Ledger)
    (toolExec : String → Args → ExecOutcome)
    (tool : String) (args : Args) :
    Except GateError (List TextContent) × Ledger × List LedgerEvent × Nat :=
  match pol tool with
  | none => (.error .UnknownToolError, L, [], 0)
  | some p =>
    match wallet with
    | none => (.error .UnauthenticatedError, L, [], 0)
    | some ident =>
      let a := L.authorize ident p.base_cost
      let evs := [LedgerEvent.authorizeCall ident p.base_cost]
      match a.1 with
      | .insufficient_funds => (.error .PaymentRequiredError, a.2, evs, 0)
      | .ledger_unavailable =>
        (.error .PaymentGateUnavailableError, a.2, evs, 0)
      | .ok =>
        match toolExec tool args with
        | .failure => (.error .ToolExecutionError, a.2, evs, 1)
        | .success content =>
          if p.require_evaluation then
            (.ok content, a.2,
              evs ++ [LedgerEvent.settleCall ident p.base_cost], 1)
          else
            (.ok content, a.2, evs, 1)

/-- What the gate hands back to the transport layer. -/
structure GateResult where
  content : List TextContent
  ledger : Ledger
  events : List LedgerEvent
  execCalls : Nat

/-- Modelled from the spec: the `require_payment` wrapper (spec section
4.2 step 6 and section 7): the Tool Executor result is returned unchanged
on success, and every gate error is caught at the boundary and converted
into the stage-tagged error content item. -/
def require_payment (pol : String → Option ToolPricePolicy)
    (wallet : Option String) (L : Ledger)
    (toolExec : String → Args → ExecOutcome)
    (tool : String) (args : Args) : GateResult :=
  match gateCore pol wallet L toolExec tool args with
  | (.error e, L2, evs, n) => ⟨[errorContent e], L2, evs, n⟩
  | (.ok c, L2, evs, n) => ⟨c, L2, evs, n⟩

/-- A ledger with every balance 1 and the backend reachable, used to
instantiate the gate theorems at concrete inputs. -/
def spyLedger : Ledger := ⟨true, fun _ => 1⟩

/-- A ledger with every balance 0 and the backend reachable. -/
def emptyLedger : Ledger := ⟨true, fun _ => 0⟩

/-- The executor the gate wraps in main.py, lifted to an `ExecOutcome`
(the tool body never raises, so every call succeeds with its content). -/
def wrappedExec : String → Args → ExecOutcome :=
  fun t a => .success (call_tool t a)

/-! ## Theorems -/

/-- Claim C4: for every argument mapping with numbers a and b, the Tool
Executor for "add" returns a single text content item whose text is the
decimal rendering of a + b, and the executor for "subtract" one whose
text is the decimal rendering of a - b; in particular "subtract" with
a = 5, b = 3 yields the text "2". -/
theorem C4_executor_arithmetic (args : Args) :
    call_tool "add" args = [⟨"text", toString (args.a + args.b)⟩] ∧
    call_tool "subtract" args = [⟨"text", toString (args.a - args.b)⟩] ∧
    call_tool "subtract" ⟨5, 3⟩ = [⟨"text", "2"⟩] := by
  refine ⟨rfl, rfl, ?_⟩
  decide

/-- Claim C10: for every tool name other than "add" and "subtract" and
every argument mapping, the wrapped executor `call_tool` itself returns a
single text content item with the unknown-tool message and does not raise
(in this embedding `call_tool` is a total function). -/
theorem C10_executor_unknown_fallback (tool_name : String) (args : Args)
    (h1 : tool_name ≠ "add") (h2 : tool_name ≠ "subtract") :
    call_tool tool_name args = [⟨"text", unknownToolText tool_name⟩] := by
  simp [call_tool, h1, h2]

/-- Witness for C10 at the concrete tool name "multiply". -/
theorem C10_executor_unknown_fallback_witness :
    call_tool "multiply" ⟨2, 3⟩ = [⟨"text", unknownToolText "multiply"⟩] :=
  C10_executor_unknown_fallback "multiply" ⟨2, 3⟩ (by decide) (by decide)

/-- Claim C3: for every request in which the wallet context was installed,
the context reset runs on every exit path of `handle_streamable_http`
(normal return and transport error alike), so the whole store is restored
to what it was before the request; in particular a request that began with
no residual identity leaves `resolve` returning absent afterwards. -/
theorem C3_context_teardown (st : Store) (r : ReqId)
    (scopeWallet : Option String) (outcome : TransportOutcome) :
    (∀ x, resolveWallet (handle_streamable_http st r scopeWallet outcome) x
        = resolveWallet st x) ∧
    (resolveWallet st r = none →
      resolveWallet (handle_streamable_http st r scopeWallet outcome) r
        = none) := by
  have key : ∀ x,
      resolveWallet (handle_streamable_http st r scopeWallet outcome) x
        = resolveWallet st x := by
    intro x
    cases outcome <;>
      · simp only [handle_streamable_http, set_agent_wallet_from_scope,
          reset_agent_wallet, resolveWallet]
        by_cases h : x = r <;> simp [h]
  exact ⟨key, fun h => (key r).trans h⟩

/-- Witness for C3: a request over the empty store, on the error exit
path, leaves the context absent afterwards. -/
theorem C3_context_teardown_witness :
    resolveWallet
        (handle_streamable_http (fun _ => none) 0 (some "alice") .raised) 0
      = none :=
  (C3_context_teardown (fun _ => none) 0 (some "alice") .raised).2 rfl

/-- Steps that belong to other requests never change what a request
resolves: the store value at `r` is invariant under any interleaved trace
whose steps all target requests other than `r`. -/
theorem runOps_frame (ops : List CtxOp) (st : Store) (r : ReqId)
    (h : ∀ op ∈ ops, CtxOp.target op ≠ r) :
    runOps st ops r = st r := by
  induction ops generalizing st with
  | nil => rfl
  | cons op rest ih =>
    have hop : CtxOp.target op ≠ r := h op (List.mem_cons_self _ _)
    have hrest : ∀ o ∈ rest, CtxOp.target o ≠ r :=
      fun o ho => h o (List.mem_cons_of_mem _ ho)
    rw [runOps, ih _ hrest]
    cases op with
    | installOp r2 w =>
      simp only [CtxOp.target] at hop
      simp [applyCtxOp, set_agent_wallet_from_scope, Ne.symm hop]
    | resetOp r2 old =>
      simp only [CtxOp.target] at hop
      simp [applyCtxOp, reset_agent_wallet, Ne.symm hop]

/-- Claim C1: for two requests concurrently in flight with distinct wallet
identities, resolving the wallet context from within R1's execution (after
R1's install, under any interleaving of steps issued by other requests,
including R2's install of its own identity and its reset) returns R1's
identity and never R2's. -/
theorem C1_request_isolation (st : Store) (r1 : ReqId) (id1 id2 : String)
    (ops : List CtxOp) (hne : id1 ≠ id2)
    (hops : ∀ op ∈ ops, CtxOp.target op ≠ r1) :
    resolveWallet
        (runOps (applyCtxOp st (.installOp r1 (some id1))) ops) r1
      = some id1 ∧
    resolveWallet
        (runOps (applyCtxOp st (.installOp r1 (some id1))) ops) r1
      ≠ some id2 := by
  have h1 : resolveWallet
      (runOps (applyCtxOp st (.installOp r1 (some id1))) ops) r1
      = some id1 := by
    have := runOps_frame ops (applyCtxOp st (.installOp r1 (some id1))) r1 hops
    simp only [resolveWallet, this]
    simp [applyCtxOp, set_agent_wallet_from_scope]
  refine ⟨h1, ?_⟩
  rw [h1]
  simp [hne]

/-- Witness for C1: request 0 installs "alice"; request 1 then installs
"bob" and resets, interleaved; request 0 still resolves "alice", not
"bob". -/
theorem C1_request_isolation_witness :
    resolveWallet
        (runOps (applyCtxOp (fun _ => none) (.installOp 0 (some "alice")))
          [.installOp 1 (some "bob"), .resetOp 1 none]) 0
      = some "alice" ∧
    resolveWallet
        (runOps (applyCtxOp (fun _ => none) (.installOp 0 (some "alice")))
          [.installOp 1 (some "bob"), .resetOp 1 none]) 0
      ≠ some "bob" :=
  C1_request_isolation (fun _ => none) 0 "alice" "bob"
    [.installOp 1 (some "bob"), .resetOp 1 none] (by decide) (by decide)

/-- Claim C2: for every tool name not present in the price policy, the
gate returns the UnknownToolError content item, never runs the Tool
Executor, and issues no ledger call (fail closed on unpriced tools). -/
theorem C2_unknown_tool_fail_closed (pol : String → Option ToolPricePolicy)
    (wallet : Option String) (L : Ledger)
    (toolExec : String → Args → ExecOutcome) (tool : String) (args : Args)
    (h : pol tool = none) :
    (require_payment pol wallet L toolExec tool args).content
        = [errorContent .UnknownToolError] ∧
    (require_payment pol wallet L toolExec tool args).execCalls = 0 ∧
    (require_payment pol wallet L toolExec tool args).events = [] := by
  simp [require_payment, gateCore, h]

/-- Witness for C2: calling the unpriced tool "multiply" under the
concrete price policy of main.py. -/
theorem C2_unknown_tool_fail_closed_witness :
    (require_payment price_policy (some "alice") spyLedger wrappedExec
        "multiply" ⟨2, 3⟩).content = [errorContent .UnknownToolError] ∧
    (require_payment price_policy (some "alice") spyLedger wrappedExec
        "multiply" ⟨2, 3⟩).execCalls = 0 ∧
    (require_payment price_policy (some "alice") spyLedger wrappedExec
        "multiply" ⟨2, 3⟩).events = [] :=
  C2_unknown_tool_fail_closed price_policy (some "alice") spyLedger
    wrappedExec "multiply" ⟨2, 3⟩ (by decide)

/-- Claim C5: for every request with no resolvable wallet identity,
invoking any priced tool fails with the UnauthenticatedError content
item, the Tool Executor is not invoked, and no ledger call is issued
(no implicit free tier). -/
theorem C5_no_wallet_unauthenticated (pol : String → Option ToolPricePolicy)
    (p : ToolPricePolicy) (L : Ledger)
    (toolExec : String → Args → ExecOutcome) (tool : String) (args : Args)
    (h : pol tool = some p) :
    (require_payment pol none L toolExec tool args).content
        = [errorContent .UnauthenticatedError] ∧
    (require_payment pol none L toolExec tool args).execCalls = 0 ∧
    (require_payment pol none L toolExec tool args).events = [] := by
  simp [require_payment, gateCore, h]

/-- Witness for C5: calling "add" with a = 1, b = 2 and no wallet;
the executor runs zero times, so no arithmetic is performed. -/
theorem C5_no_wallet_unauthenticated_witness :
    (require_payment price_policy none spyLedger wrappedExec
        "add" ⟨1, 2⟩).content = [errorContent .UnauthenticatedError] ∧
    (require_payment price_policy none spyLedger wrappedExec
        "add" ⟨1, 2⟩).execCalls = 0 ∧
    (require_payment price_policy none spyLedger wrappedExec
        "add" ⟨1, 2⟩).events = [] :=
  C5_no_wallet_unauthenticated price_policy ⟨1 / 10, true⟩ spyLedger
    wrappedExec "add" ⟨1, 2⟩ rfl

/-- Claim C6: for every request whose resolved wallet cannot cover the
tool's base cost, authorization answers insufficient funds, the call
fails with the PaymentRequiredError content item, the Tool Executor is
not invoked, and the ledger (so every balance) is unchanged. -/
theorem C6_insufficient_funds (pol : String → Option ToolPricePolicy)
    (ident : String) (p : ToolPricePolicy) (L : Ledger)
    (toolExec : String → Args → ExecOutcome) (tool : String) (args : Args)
    (hp : pol tool = some p) (havail : L.available = true)
    (hbal : L.balance ident < p.base_cost) :
    (require_payment pol (some ident) L toolExec tool args).content
        = [errorContent .PaymentRequiredError] ∧
    (require_payment pol (some ident) L toolExec tool args).execCalls = 0 ∧
    (require_payment pol (some ident) L toolExec tool args).ledger = L ∧
    (require_payment pol (some ident) L toolExec tool args).events
        = [LedgerEvent.authorizeCall ident p.base_cost] := by
  simp [require_payment, gateCore, Ledger.authorize, hp, havail, hbal]

/-- The empty ledger's balance 0 is below the 0.10 base cost of the
concrete policy entry. -/
theorem emptyLedger_lt_tenth :
    emptyLedger.balance "alice"
      < (⟨1 / 10, true⟩ : ToolPricePolicy).base_cost := by
  norm_num [emptyLedger]

/-- Witness for C6: a wallet with balance 0 calling "add" priced at
0.10. -/
theorem C6_insufficient_funds_witness :
    (require_payment price_policy (some "alice") emptyLedger wrappedExec
        "add" ⟨1, 2⟩).content = [errorContent .PaymentRequiredError] ∧
    (require_payment price_policy (some "alice") emptyLedger wrappedExec
        "add" ⟨1, 2⟩).execCalls = 0 ∧
    (require_payment price_policy (some "alice") emptyLedger wrappedExec
        "add" ⟨1, 2⟩).ledger = emptyLedger ∧
    (require_payment price_policy (some "alice") emptyLedger wrappedExec
        "add" ⟨1, 2⟩).events
      = [LedgerEvent.authorizeCall "alice" ((1 : ℚ) / 10)] :=
  C6_insufficient_funds price_policy "alice" ⟨1 / 10, true⟩ emptyLedger
    wrappedExec "add" ⟨1, 2⟩ rfl rfl emptyLedger_lt_tenth

/-- Counterexample to claim C7 as stated ("exactly one authorization call
per tool invocation"): the invocation of the unpriced tool "multiply" is
rejected at the policy lookup and issues zero authorization calls. -/
theorem C7_counterexample :
    countAuth ((require_payment price_policy (some "alice") spyLedger
        wrappedExec "multiply" ⟨2, 3⟩).events) ≠ 1 := by
  decide

/-- Claim C7 (amended): for every tool invocation processed by the payment
gate, at most one authorization call and at most one settlement call are
issued to the ledger collaborator; never more of either.  (An invocation
rejected before the ledger is reached — unknown tool or no resolvable
wallet — issues zero authorization calls, so "exactly one" does not
hold.) -/
theorem C7_ledger_call_bounds (pol : String → Option ToolPricePolicy)
    (wallet : Option String) (L : Ledger)
    (toolExec : String → Args → ExecOutcome) (tool : String) (args : Args) :
    countAuth ((require_payment pol wallet L toolExec tool args).events)
        ≤ 1 ∧
    countSettle ((require_payment pol wallet L toolExec tool args).events)
        ≤ 1 := by
  unfold require_payment gateCore
  cases hpol : pol tool with
  | none => simp [countAuth, countSettle]
  | some p =>
    cases wallet with
    | none => simp [countAuth, countSettle]
    | some ident =>
      cases ha : (L.authorize ident p.base_cost).1 with
      | insufficient_funds =>
        simp [ha, countAuth, countSettle, LedgerEvent.isAuthorize,
          LedgerEvent.isSettle, List.filter]
      | ledger_unavailable =>
        simp [ha, countAuth, countSettle, LedgerEvent.isAuthorize,
          LedgerEvent.isSettle, List.filter]
      | ok =>
        cases he : toolExec tool args with
        | failure =>
          simp [ha, he, countAuth, countSettle, LedgerEvent.isAuthorize,
            LedgerEvent.isSettle, List.filter]
        | success c =>
          by_cases hre : p.require_evaluation <;>
            simp [ha, he, hre, countAuth, countSettle,
              LedgerEvent.isAuthorize, LedgerEvent.isSettle, List.filter]

/-- Claim C8: every gate error is caught at the payment gate boundary and
converted into the single stage-tagged textual content item (none
propagates past the gate), and distinct errors produce distinct texts, so
the caller can tell the failed stages apart. -/
theorem C8_errors_converted (pol : String → Option ToolPricePolicy)
    (wallet : Option String) (L : Ledger)
    (toolExec : String → Args → ExecOutcome) (tool : String) (args : Args)
    (e : GateError)
    (h : (gateCore pol wallet L toolExec tool args).1 = .error e) :
    (require_payment pol wallet L toolExec tool args).content
        = [errorContent e] ∧
    ∀ e2 : GateError, errorContent e = errorContent e2 → e = e2 := by
  constructor
  · unfold require_payment
    rcases hgc : gateCore pol wallet L toolExec tool args with
      ⟨res, L2, evs, n⟩
    rw [hgc] at h
    simp only at h
    cases res with
    | error e2 =>
      have he2 : e2 = e := by injection h
      subst he2
      rfl
    | ok c => exact absurd h (by simp)
  · intro e2 he
    cases e <;> cases e2 <;>
      simp_all [errorContent, GateError.stage]

/-- Witness for C8: the unknown-tool failure at tool "multiply" is
converted into its stage-tagged content item. -/
theorem C8_errors_converted_witness :
    (require_payment price_policy (some "alice") spyLedger wrappedExec
        "multiply" ⟨1, 1⟩).content = [errorContent .UnknownToolError] ∧
    ∀ e2 : GateError,
      errorContent .UnknownToolError = errorContent e2 →
        GateError.UnknownToolError = e2 :=
  C8_errors_converted price_policy (some "alice") spyLedger wrappedExec
    "multiply" ⟨1, 1⟩ .UnknownToolError rfl

/-- Claim C9: for every tool invocation in which the tool is priced, a
wallet is resolved, authorization succeeds, and the Tool Executor
completes normally, the gate returns the executor's result unchanged and
the executor ran exactly once. -/
theorem C9_success_transparent (pol : String → Option ToolPricePolicy)
    (ident : String) (p : ToolPricePolicy) (L : Ledger)
    (toolExec : String → Args → ExecOutcome) (tool : String) (args : Args)
    (content : List TextContent)
    (hp : pol tool = some p)
    (ha : (L.authorize ident p.base_cost).1 = .ok)
    (he : toolExec tool args = .success content) :
    (require_payment pol (some ident) L toolExec tool args).content
        = content ∧
    (require_payment pol (some ident) L toolExec tool args).execCalls
        = 1 := by
  unfold require_payment gateCore
  rw [hp]
  simp only [ha, he]
  by_cases hre : p.require_evaluation <;> simp [hre]

/-- The ledger with balance 1 authorizes the 0.10 base cost of the
concrete policy entry. -/
theorem spyLedger_authorize_ok :
    (spyLedger.authorize "alice"
        (⟨1 / 10, true⟩ : ToolPricePolicy).base_cost).1 = .ok := by
  norm_num [Ledger.authorize, spyLedger]

/-- Witness for C9: a funded wallet calling "add" with a = 1, b = 2 gets
back exactly the executor's content, the text "3". -/
theorem C9_success_transparent_witness :
    (require_payment price_policy (some "alice") spyLedger wrappedExec
        "add" ⟨1, 2⟩).content = call_tool "add" ⟨1, 2⟩ ∧
    (require_payment price_policy (some "alice") spyLedger wrappedExec
        "add" ⟨1, 2⟩).execCalls = 1 :=
  C9_success_transparent price_policy "alice" ⟨1 / 10, true⟩ spyLedger
    wrappedExec "add" ⟨1, 2⟩ (call_tool "add" ⟨1, 2⟩) rfl
    spyLedger_authorize_ok rfl
